import Mathlib

/-!
Shallow embedding of `src/server.js` (a multi-session messaging gateway:
session registry, per-session connection state machine with reconnection,
WebSocket subscriber fan-out, pairing and send HTTP handlers).

JS `Map` objects (`sessions`, `wsClients`) are modelled as association
lists keyed by `String`, with `mapSet` / `mapGet` / `mapDelete` mirroring
`Map.set` / `Map.get` / `Map.delete` (a real `Map` never holds two
entries for one key; `mapSet` replaces in place, preserving insertion
order, and appends fresh keys at the end).
-/

namespace GZB

/-- Model of `Map.get`: value of the first binding for the key, if any. -/
def mapGet {α : Type} : List (String × α) → String → Option α
  | [], _ => none
  | p :: t, k => if p.1 = k then some p.2 else mapGet t k

/-- Model of `Map.set`: replace the binding in place if the key is present,
otherwise append a new binding at the end (JS insertion-order semantics). -/
def mapSet {α : Type} : List (String × α) → String → α → List (String × α)
  | [], k, v => [(k, v)]
  | p :: t, k, v => if p.1 = k then (k, v) :: t else p :: mapSet t k v

/-- Model of `Map.delete`: drop the binding for the key. -/
def mapDelete {α : Type} (m : List (String × α)) (k : String) : List (String × α) :=
  m.filter (fun q => q.1 ≠ k)

/-- The keys of the map, in insertion order. -/
def keys {α : Type} (m : List (String × α)) : List String :=
  m.map Prod.fst

/-- Session status as stored in the registry: `createSession` stores
`'connecting'`, the `open` branch of `connection.update` stores `'connected'`.
No other status value is ever written to the `sessions` map. -/
inductive SessStatus where
  | connecting
  | connected

deriving instance DecidableEq for SessStatus

/-- One entry of the `sessions` map: `{ sock, phoneNumber, status }`.
`sock` is the transport handle, identified by a number; `sock = none` and
`phoneNumber = none` model the JS fields being `undefined`, which happens
exactly when an entry is built by spreading a missing entry
(`{ ...sessions.get(sessionId), status: 'connected' }` with
`sessions.get(sessionId) === undefined`). -/
structure Session where
  sock : Option Nat
  phoneNumber : Option String
  status : SessStatus

deriving instance DecidableEq for Session

abbrev SessionsMap := List (String × Session)

/-- Events pushed to WebSocket subscribers, mirroring the JSON envelopes
`{type:'qr', data}`, `{type:'connection', status}` and
`{type:'message', data:{from, text, timestamp}}`. -/
inductive Event where
  | qr (data : String)
  | connection (status : String)
  | message (fromJid : String) (text : String) (timestamp : Nat)

deriving instance DecidableEq for Event

/-- One WebSocket client: `id` models object identity (the `ws` reference),
`readyState` the numeric `ws.readyState` field. -/
structure WsChannel where
  id : Nat
  readyState : Nat

deriving instance DecidableEq for WsChannel

/-- `WebSocket.OPEN` readyState constant. -/
def WebSocketOPEN : Nat := 1

abbrev WsMap := List (String × List WsChannel)

/-- The subscriber list consulted by `broadcast`:
`wsClients.get(sessionId) || []`. -/
def subscribersOf (w : WsMap) (sid : String) : List WsChannel :=
  (mapGet w sid).getD []

/-- Embedding of `broadcast(sessionId, data)` (src/server.js:29-36): for each
client in `wsClients.get(sessionId) || []`, send the event iff
`ws.readyState === WebSocket.OPEN`. The result is the list of performed
`ws.send` calls, as (channel id, event) pairs, in subscriber-list order.
The function reads `wsClients` and mutates nothing. -/
def broadcast (w : WsMap) (sid : String) (ev : Event) : List (Nat × Event) :=
  (subscribersOf w sid).filterMap
    (fun ch => if ch.readyState = WebSocketOPEN then some (ch.id, ev) else none)

/-- `DisconnectReason.loggedOut` from the transport library (HTTP status 401). -/
def DisconnectReasonLoggedOut : Nat := 401

/-- Embedding of the `connection === 'open'` branch of the
`connection.update` handler (src/server.js:61-65):
`sessions.set(sessionId, { ...sessions.get(sessionId), status: 'connected' })`.
When the entry is missing, spreading `undefined` yields `{}`, so the written
entry is `{ status: 'connected' }` with `sock` and `phoneNumber` undefined —
the entry is (re-)inserted, not skipped. -/
def openUpdate (m : SessionsMap) (sid : String) : SessionsMap :=
  match mapGet m sid with
  | some s => mapSet m sid { s with status := SessStatus.connected }
  | none => mapSet m sid (Session.mk none none SessStatus.connected)

/-- A `setTimeout(() => createSession(sessionId, phoneNumber), delay)` call:
(delay in ms, sessionId, phoneNumber). -/
structure ScheduledReconnect where
  delay : Nat
  sessionId : String
  phoneNumber : String

deriving instance DecidableEq for ScheduledReconnect

/-- Result of the `connection === 'close'` branch: the updated `sessions`
map, the `broadcast(sessionId, ·)` calls made, and the reconnection timers
scheduled. -/
structure CloseOut where
  sessions : SessionsMap
  published : List Event
  timers : List ScheduledReconnect

deriving instance DecidableEq for CloseOut

/-- Embedding of the `connection === 'close'` branch of the
`connection.update` handler (src/server.js:67-77).
`statusCode` models `lastDisconnect?.error?.output?.statusCode` (`none` when
any link of the optional chain is missing).
`shouldReconnect = statusCode !== DisconnectReason.loggedOut`; if so, one
reconnection `setTimeout(() => createSession(sessionId, phoneNumber), 5000)`
is scheduled; otherwise the entry is deleted and a
`{type:'connection', status:'logged_out'}` event is broadcast. -/
def handleClose (m : SessionsMap) (sid phone : String) (statusCode : Option Nat) :
    CloseOut :=
  if statusCode ≠ some DisconnectReasonLoggedOut then
    CloseOut.mk m [] [ScheduledReconnect.mk 5000 sid phone]
  else
    CloseOut.mk (mapDelete m sid) [Event.connection "logged_out"] []

/-- Registry-mutating operations reachable in the source, for the registry
invariant. `create sid phone sockId` is `createSession`
(src/server.js:39-52: `sessions.set(sessionId, {sock, phoneNumber,
status: 'connecting'})`), invoked by `/api/pair` or by a fired reconnection
timer; `openEvt` and `closeEvt` are the two `connection.update` branches;
`disconnect` is the registry effect of `POST /api/disconnect/:sessionId`. -/
inductive RegOp where
  | create (sid phone : String) (sockId : Nat)
  | openEvt (sid : String)
  | closeEvt (sid phone : String) (statusCode : Option Nat)
  | disconnect (sid : String)

/-- The effect of one operation on the `sessions` map. -/
def applyOp (m : SessionsMap) : RegOp → SessionsMap
  | RegOp.create sid phone sockId =>
      mapSet m sid (Session.mk (some sockId) (some phone) SessStatus.connecting)
  | RegOp.openEvt sid => openUpdate m sid
  | RegOp.closeEvt sid phone statusCode => (handleClose m sid phone statusCode).sessions
  | RegOp.disconnect sid => mapDelete m sid

/-- The `sessions` map after a sequence of operations, starting from the
initial empty `new Map()`. -/
def runOps (ops : List RegOp) : SessionsMap :=
  ops.foldl applyOp []

/-- JS `a || b` on an optional string: a missing (`undefined`) or empty
string is falsy, any other string is truthy. -/
def jsOrStr (a : Option String) (b : String) : String :=
  match a with
  | some s => if s = "" then b else s
  | none => b

/-- The message key: `{ fromMe, remoteJid }`. -/
structure MsgKey where
  fromMe : Bool
  remoteJid : String

deriving instance DecidableEq for MsgKey

/-- The parts of `msg.message` the handler reads: `conversation` and
`extendedTextMessage?.text` (`none` models an absent field). -/
structure MsgContent where
  conversation : Option String
  extendedText : Option String

deriving instance DecidableEq for MsgContent

/-- An inbound message as consumed by the `messages.upsert` handler
(`msg.message` may itself be absent). -/
structure WAMsg where
  key : MsgKey
  message : Option MsgContent

deriving instance DecidableEq for WAMsg

/-- Embedding of the text extraction (src/server.js:88-89):
`msg.message?.conversation || msg.message?.extendedTextMessage?.text || ''`. -/
def extractText (m : WAMsg) : String :=
  jsOrStr (m.message.bind MsgContent.conversation)
    (jsOrStr (m.message.bind MsgContent.extendedText) "")

/-- Embedding of `text.startsWith('/')`. -/
def jsStartsWithSlash (s : String) : Bool :=
  match s.data with
  | [] => false
  | c :: _ => c = '/'

/-- Embedding of `text.slice(1)`. -/
def jsDrop1 (s : String) : String :=
  String.mk (s.data.drop 1)

/-- Embedding of `s.split(' ')[0]`: the characters before the first space
(the whole string when it has no space), which is JS `split`'s first chunk. -/
def jsSplitSpaceHead (s : String) : String :=
  String.mk (s.data.takeWhile (fun c => c ≠ ' '))

/-- Embedding of `s.toLowerCase()` (character-wise lowering). -/
def jsToLower (s : String) : String :=
  String.mk (s.data.map Char.toLower)

/-- Embedding of `text.slice(1).split(' ')[0].toLowerCase()`
(src/server.js:103). -/
def commandOf (text : String) : String :=
  jsToLower (jsSplitSpaceHead (jsDrop1 text))

/-- The acknowledgement reply text sent for a command message
(src/server.js:107-109). -/
def ackText (text : String) : String :=
  "Command received: /" ++ commandOf text

/-- Outcome of one `messages.upsert` invocation: the `broadcast` calls made,
the `sock.sendMessage` calls attempted (as (jid, text) pairs), and whether
the handler's async function was aborted by a rejected `sendMessage` (there
is no try/catch around the loop, so a rejection ends the iteration). -/
structure UpsertOut where
  broadcasts : List Event
  sends : List (String × String)
  errored : Bool

deriving instance DecidableEq for UpsertOut

/-- Embedding of the message loop of the `messages.upsert` handler
(src/server.js:85-111). `sendOk jid text` tells whether the
`sock.sendMessage(jid, {text})` promise resolves; a rejected send aborts the
remaining iterations (no try/catch in the handler). `now` models
`Date.now()`. -/
def processMessages (sendOk : String → String → Bool) (now : Nat) :
    List WAMsg → UpsertOut
  | [] => UpsertOut.mk [] [] false
  | msg :: rest =>
    if msg.key.fromMe = true then processMessages sendOk now rest
    else
      if extractText msg = "" then processMessages sendOk now rest
      else
        let text := extractText msg
        let ev := Event.message msg.key.remoteJid text now
        if jsStartsWithSlash text = true then
          if sendOk msg.key.remoteJid (ackText text) = true then
            let out := processMessages sendOk now rest
            UpsertOut.mk (ev :: out.broadcasts)
              ((msg.key.remoteJid, ackText text) :: out.sends) out.errored
          else
            UpsertOut.mk [ev] [(msg.key.remoteJid, ackText text)] true
        else
          let out := processMessages sendOk now rest
          UpsertOut.mk (ev :: out.broadcasts) out.sends out.errored

/-- Embedding of the `messages.upsert` handler (src/server.js:82-112):
`if (type !== 'notify') return;` then the message loop. -/
def messagesUpsert (sendOk : String → String → Bool) (batchType : String)
    (msgs : List WAMsg) (now : Nat) : UpsertOut :=
  if batchType = "notify" then processMessages sendOk now msgs
  else UpsertOut.mk [] [] false

/-- Modelled from the spec: "extract the first whitespace-delimited token
after the sigil" — the characters of the string up to (excluding) its first
whitespace character. Used only to compare the spec's wording with the
source's space-based `split(' ')[0]`. -/
def specFirstWhitespaceToken (s : String) : String :=
  String.mk (s.data.takeWhile (fun c => !c.isWhitespace))

/-- The two JS `Map`s that make up the server's shared mutable state:
`sessions` and `wsClients`. -/
structure SrvState where
  sessions : SessionsMap
  wsClients : WsMap

deriving instance DecidableEq for SrvState

/-- `broadcast` as a state operation: it only reads `wsClients`, so the
state component of the result is the input state (src/server.js:29-36
contains no mutation of `sessions` or `wsClients`). -/
def broadcastSt (st : SrvState) (sid : String) (ev : Event) :
    SrvState × List (Nat × Event) :=
  (st, broadcast st.wsClients sid ev)

/-- Embedding of the WebSocket `close` handler (src/server.js:225-229):
`wsClients.set(sessionId, (wsClients.get(sessionId) || []).filter(c => c !== ws))`,
with reference inequality `c !== ws` modelled by channel-id inequality. -/
def wsCloseHandler (st : SrvState) (sid : String) (wsId : Nat) : SrvState :=
  SrvState.mk st.sessions
    (mapSet st.wsClients sid
      ((subscribersOf st.wsClients sid).filter (fun c => c.id ≠ wsId)))

/-- JS truthiness test for a request field: `!field` holds for an absent
field (`undefined`) and for the empty string. -/
def jsFalsy (o : Option String) : Bool :=
  match o with
  | some s => s = ""
  | none => true

/-- Embedding of `phoneNumber.replace(/[^0-9]/g, '')` (src/server.js:127). -/
def cleanPhoneOf (p : String) : String :=
  String.mk (p.data.filter (fun c => c.isDigit))

/-- Body of `POST /api/pair`: both fields optional in JSON. -/
structure PairReq where
  sessionId : Option String
  phoneNumber : Option String

deriving instance DecidableEq for PairReq

/-- Responses of `POST /api/pair`: `{success:true, pairCode, message}`,
`400 {error}`, or `500 {error}`. -/
inductive PairResp where
  | ok (pairCode : String) (message : String)
  | badRequest (error : String)
  | serverError (error : String)

deriving instance DecidableEq for PairResp

/-- Side effects of the `/api/pair` handler, in program order. -/
inductive PairAction where
  | createSess (sid phone : String)
  | delay (ms : Nat)
  | requestCode (phone : String)

deriving instance DecidableEq for PairAction

/-- Embedding of the `POST /api/pair` handler (src/server.js:118-147):
missing (falsy) `sessionId` or `phoneNumber` → `400`, nothing else happens;
otherwise clean the phone number to digits, `createSession` (registry effect:
`sessions.set(sessionId, {sock, phoneNumber: cleanPhone, status:'connecting'})`
with a fresh handle `sockId`), wait 2000 ms, then
`session.sock.requestPairingCode(cleanPhone)`; its result `pres` is returned
as `{success:true, pairCode, message}` on success, and any thrown error is
caught and returned as `500 {error: error.message}`. -/
def apiPair (st : SrvState) (req : PairReq) (sockId : Nat)
    (pres : Except String String) : SrvState × PairResp × List PairAction :=
  if jsFalsy req.sessionId || jsFalsy req.phoneNumber then
    (st, PairResp.badRequest "sessionId and phoneNumber required", [])
  else
    let sid := req.sessionId.getD ""
    let cleanPhone := cleanPhoneOf (req.phoneNumber.getD "")
    let st1 := SrvState.mk
      (mapSet st.sessions sid
        (Session.mk (some sockId) (some cleanPhone) SessStatus.connecting))
      st.wsClients
    let acts := [PairAction.createSess sid cleanPhone, PairAction.delay 2000,
      PairAction.requestCode cleanPhone]
    match pres with
    | Except.ok code =>
        (st1, PairResp.ok code
          "Enter this code in WhatsApp > Linked Devices > Link a Device", acts)
    | Except.error e => (st1, PairResp.serverError e, acts)

/-- Responses of `POST /api/send`. -/
inductive SendResp where
  | ok
  | badRequest (error : String)
  | serverError (error : String)

deriving instance DecidableEq for SendResp

/-- Embedding of the `POST /api/send` handler (src/server.js:162-178):
absent session or status not `'connected'` → `400 {error}`, no side effect;
otherwise `jid = to.includes('@') ? to : to + '@s.whatsapp.net'` and one
`session.sock.sendMessage(jid, {text: message})`; `sres` is that call's
outcome, a rejection being caught as `500 {error}`. A `connected` entry with
`sock` undefined (producible only by the resurrection slip of the `open`
branch) throws a TypeError before any transport call, caught as `500`. -/
def apiSend (st : SrvState) (sessionId toAddr message : String)
    (sres : Except String Unit) : SrvState × SendResp × List (String × String) :=
  match mapGet st.sessions sessionId with
  | none => (st, SendResp.badRequest "Session not connected", [])
  | some s =>
    if s.status ≠ SessStatus.connected then
      (st, SendResp.badRequest "Session not connected", [])
    else
      match s.sock with
      | none =>
          (st, SendResp.serverError "Cannot read properties of undefined", [])
      | some _ =>
        let jid := if toAddr.data.any (fun c => c = '@') then toAddr
          else toAddr ++ "@s.whatsapp.net"
        match sres with
        | Except.ok _ => (st, SendResp.ok, [(jid, message)])
        | Except.error e => (st, SendResp.serverError e, [(jid, message)])

/-- A demo server state: session "s1" connected with handle 7, and two
subscribers of "s1" (channel 1 OPEN, channel 2 CLOSED). -/
def demoState : SrvState :=
  SrvState.mk
    [("s1", Session.mk (some 7) (some "15551234567") SessStatus.connected)]
    [("s1", [WsChannel.mk 1 1, WsChannel.mk 2 3])]

/-- A non-self inbound message whose text is the command `"/status"`. -/
def statusMsg : WAMsg :=
  WAMsg.mk (MsgKey.mk false "u1@s.whatsapp.net")
    (some (MsgContent.mk (some "/status") none))

/-- A non-self inbound message whose text is the command `"/cmd"`. -/
def cmdMsg : WAMsg :=
  WAMsg.mk (MsgKey.mk false "u1@s.whatsapp.net")
    (some (MsgContent.mk (some "/cmd") none))

/-- A non-self inbound message whose text is `"hello"`. -/
def helloMsg : WAMsg :=
  WAMsg.mk (MsgKey.mk false "u1@s.whatsapp.net")
    (some (MsgContent.mk (some "hello") none))

theorem mapGet_mapSet_self {α : Type} (m : List (String × α)) (k : String) (v : α) :
    mapGet (mapSet m k v) k = some v := by
  induction m with
  | nil => simp [mapSet, mapGet]
  | cons p t ih =>
    by_cases h : p.1 = k
    · simp [mapSet, mapGet, h]
    · simp [mapSet, mapGet, h, ih]

theorem mapGet_mapSet_ne {α : Type} (m : List (String × α)) (k k2 : String) (v : α)
    (h : k2 ≠ k) : mapGet (mapSet m k v) k2 = mapGet m k2 := by
  induction m with
  | nil => simp [mapSet, mapGet, Ne.symm h]
  | cons p t ih =>
    by_cases hp : p.1 = k
    · simp [mapSet, mapGet, hp, Ne.symm h]
    · simp only [mapSet, if_neg hp, mapGet, ih]

theorem mapGet_mapDelete_self {α : Type} (m : List (String × α)) (k : String) :
    mapGet (mapDelete m k) k = none := by
  induction m with
  | nil => simp [mapDelete, mapGet]
  | cons p t ih =>
    by_cases h : p.1 = k
    · simpa [mapDelete, List.filter_cons, h] using ih
    · simpa [mapDelete, List.filter_cons, h, mapGet] using ih

theorem mapSet_cons_eq {α : Type} (p : String × α) (t : List (String × α)) (k : String)
    (v : α) (hp : p.1 = k) : mapSet (p :: t) k v = (k, v) :: t := by
  simp [mapSet, hp]

theorem mapSet_cons_ne {α : Type} (p : String × α) (t : List (String × α)) (k : String)
    (v : α) (hp : p.1 ≠ k) : mapSet (p :: t) k v = p :: mapSet t k v := by
  simp [mapSet, hp]

theorem mem_keys_mapSet {α : Type} (m : List (String × α)) (k a : String) (v : α)
    (h : a ∈ keys (mapSet m k v)) : a ∈ keys m ∨ a = k := by
  induction m with
  | nil => right; simpa [mapSet, keys] using h
  | cons p t ih =>
    by_cases hp : p.1 = k
    · rw [mapSet_cons_eq p t k v hp] at h
      simp only [keys, List.map_cons, List.mem_cons] at h ⊢
      rcases h with h1 | h1
      · right; exact h1
      · left; right; exact h1
    · rw [mapSet_cons_ne p t k v hp] at h
      simp only [keys, List.map_cons, List.mem_cons] at h ⊢
      rcases h with h1 | h1
      · left; left; exact h1
      · rcases ih h1 with h2 | h2
        · left; right; exact h2
        · right; exact h2

theorem nodup_keys_mapSet {α : Type} (m : List (String × α)) (k : String) (v : α)
    (h : (keys m).Nodup) : (keys (mapSet m k v)).Nodup := by
  induction m with
  | nil => simp [mapSet, keys]
  | cons p t ih =>
    simp only [keys, List.map_cons, List.nodup_cons] at h
    by_cases hp : p.1 = k
    · rw [mapSet_cons_eq p t k v hp]
      simp only [keys, List.map_cons, List.nodup_cons]
      exact ⟨by rw [← hp]; exact h.1, h.2⟩
    · rw [mapSet_cons_ne p t k v hp]
      simp only [keys, List.map_cons, List.nodup_cons]
      refine ⟨fun hmem => ?_, ih h.2⟩
      rcases mem_keys_mapSet t k p.1 v hmem with h2 | h2
      · exact h.1 h2
      · exact hp h2

theorem nodup_keys_mapDelete {α : Type} (m : List (String × α)) (k : String)
    (h : (keys m).Nodup) : (keys (mapDelete m k)).Nodup :=
  List.Nodup.sublist ((List.filter_sublist m).map Prod.fst) h

theorem filterMap_ite {α β : Type} (p : α → Prop) [DecidablePred p] (f : α → β)
    (l : List α) :
    l.filterMap (fun a => if p a then some (f a) else none)
      = (l.filter (fun a => decide (p a))).map f := by
  induction l with
  | nil => rfl
  | cons a t ih =>
    by_cases h : p a <;>
      simp [List.filterMap_cons, List.filter_cons, h, ih]

theorem nodup_keys_applyOp (m : SessionsMap) (op : RegOp)
    (h : (keys m).Nodup) : (keys (applyOp m op)).Nodup := by
  cases op with
  | create sid phone sockId => exact nodup_keys_mapSet m sid _ h
  | openEvt sid =>
    cases hg : mapGet m sid with
    | some s => simpa [applyOp, openUpdate, hg] using nodup_keys_mapSet m sid _ h
    | none => simpa [applyOp, openUpdate, hg] using nodup_keys_mapSet m sid _ h
  | closeEvt sid phone statusCode =>
    by_cases hc : statusCode = some DisconnectReasonLoggedOut
    · simpa [applyOp, handleClose, hc] using nodup_keys_mapDelete m sid h
    · simpa [applyOp, handleClose, hc] using h
  | disconnect sid => exact nodup_keys_mapDelete m sid h

theorem nodup_keys_foldl (ops : List RegOp) :
    ∀ m : SessionsMap, (keys m).Nodup → (keys (ops.foldl applyOp m)).Nodup := by
  induction ops with
  | nil => intro m h; simpa using h
  | cons op rest ih =>
    intro m h
    exact ih (applyOp m op) (nodup_keys_applyOp m op h)

theorem takeWhile_mono_isPrefixOf {p q : Char → Bool}
    (h : ∀ a, p a = true → q a = true) :
    ∀ l : List Char, l.takeWhile p <+: l.takeWhile q := by
  intro l
  induction l with
  | nil => simp
  | cons a t ih =>
    cases hp : p a with
    | false => simp [List.takeWhile_cons, hp]
    | true =>
      have hq := h a hp
      rcases ih with ⟨r, hr⟩
      exact ⟨r, by simp [List.takeWhile_cons, hp, hq, hr]⟩

/-- C1: in every registry state reachable from the empty map by any
interleaving of `createSession`, `connection.update` (open/close) and
disconnect operations, at most one transport handle is registered under any
`sessionId` (the key list has no duplicate, so every id has at most one
entry, hence at most one registered handle), and a `createSession` for an
already-registered id supersedes the old entry: the registry afterwards maps
the id to the new handle with the given phone number and status
`'connecting'`. -/
theorem registry_at_most_one_handle (ops : List RegOp) (sid phone : String)
    (sockId : Nat) :
    (keys (runOps ops)).Nodup
    ∧ (∀ a, (keys (runOps ops)).count a ≤ 1)
    ∧ mapGet (runOps (ops ++ [RegOp.create sid phone sockId])) sid
        = some (Session.mk (some sockId) (some phone) SessStatus.connecting) := by
  have h1 : (keys (runOps ops)).Nodup := nodup_keys_foldl ops [] (by simp [keys])
  refine ⟨h1, fun a => List.nodup_iff_count_le_one.mp h1 a, ?_⟩
  have h2 : runOps (ops ++ [RegOp.create sid phone sockId])
      = applyOp (runOps ops) (RegOp.create sid phone sockId) := by
    simp [runOps, List.foldl_append]
  rw [h2]
  exact mapGet_mapSet_self (runOps ops) sid _

/-- C1 witness: duplicate creation for `"s1"`; the second create supersedes
the first (handle 2, phone `"p2"`), and keys stay duplicate-free. -/
theorem registry_at_most_one_handle_witness :
    (keys (runOps [RegOp.create "s1" "p1" 1, RegOp.create "s1" "p1" 2])).Nodup
    ∧ mapGet (runOps ([RegOp.create "s1" "p1" 1] ++ [RegOp.create "s1" "p2" 2])) "s1"
        = some (Session.mk (some 2) (some "p2") SessStatus.connecting) :=
  ⟨(registry_at_most_one_handle
      [RegOp.create "s1" "p1" 1, RegOp.create "s1" "p1" 2] "x" "y" 0).1,
   (registry_at_most_one_handle [RegOp.create "s1" "p1" 1] "s1" "p2" 2).2.2⟩

/-- C2: a `close` whose disconnect status code is the logged-out code removes
the session entry, broadcasts `{type:'connection', status:'logged_out'}` and
schedules no reconnection; a `close` with any other code — or with no code at
all — schedules exactly one `createSession(sessionId, phoneNumber)` after the
fixed 5000 ms delay, with the same id and phone number, and publishes
nothing. -/
theorem close_logout_terminal_else_reconnect (m : SessionsMap)
    (sid phone : String) (statusCode : Option Nat) :
    ((handleClose m sid phone statusCode).timers
        = if statusCode = some DisconnectReasonLoggedOut then []
          else [ScheduledReconnect.mk 5000 sid phone])
    ∧ ((handleClose m sid phone statusCode).published
        = if statusCode = some DisconnectReasonLoggedOut
          then [Event.connection "logged_out"] else [])
    ∧ mapGet (handleClose m sid phone (some DisconnectReasonLoggedOut)).sessions sid
        = none
    ∧ ((handleClose m sid phone statusCode).sessions
        = if statusCode = some DisconnectReasonLoggedOut then mapDelete m sid else m) := by
  by_cases h : statusCode = some DisconnectReasonLoggedOut <;>
    simp [handleClose, h, mapGet_mapDelete_self]

/-- C2 witness: on the demo registry, a logged-out close (code 401) removes
`"s1"` and schedules nothing; a close with no status code schedules exactly
one 5000 ms reconnection for the same id and phone. -/
theorem close_logout_terminal_else_reconnect_witness :
    ((handleClose demoState.sessions "s1" "15551234567" (some 401)).timers
        = if (some 401 : Option Nat) = some DisconnectReasonLoggedOut then []
          else [ScheduledReconnect.mk 5000 "s1" "15551234567"])
    ∧ ((handleClose demoState.sessions "s1" "15551234567" none).timers
        = if (none : Option Nat) = some DisconnectReasonLoggedOut then []
          else [ScheduledReconnect.mk 5000 "s1" "15551234567"]) :=
  ⟨(close_logout_terminal_else_reconnect demoState.sessions "s1" "15551234567"
      (some 401)).1,
   (close_logout_terminal_else_reconnect demoState.sessions "s1" "15551234567"
      none).1⟩

/-- C3 (code bug): a status update racing with registry removal is not a
no-op. An `open` connection.update for a `sessionId` absent from the
registry executes `sessions.set(sessionId, {...undefined, status:'connected'})`
and re-inserts an entry `{status:'connected'}` with `sock` and `phoneNumber`
undefined — evaluated here on the empty registry and id `"s1"`. It does not
throw, but it resurrects the entry, contrary to the claimed no-op. -/
theorem openUpdate_resurrects_removed_session :
    openUpdate [] "s1" = [("s1", Session.mk none none SessStatus.connected)]
    ∧ openUpdate [] "s1" ≠ []
    ∧ mapGet (openUpdate [] "s1") "s1"
        = some (Session.mk none none SessStatus.connected) := by
  refine ⟨rfl, by decide, rfl⟩

/-- C4: `broadcast(sessionId, event)` performs exactly one `ws.send` per
currently-open channel of the session's subscriber list (a pair `(id, event)`
is sent iff some subscriber with that id is OPEN), performs none for a
channel whose `readyState` is not OPEN (skipped, no error: the function is
total), and with zero subscribers — an empty list or no list at all — it
performs no sends. -/
theorem broadcast_delivers_exactly_open (w : WsMap) (sid : String) (ev : Event) :
    (broadcast w sid ev
        = ((subscribersOf w sid).filter
            (fun ch => ch.readyState = WebSocketOPEN)).map (fun ch => (ch.id, ev)))
    ∧ (∀ q : Nat × Event, q ∈ broadcast w sid ev ↔
        ∃ ch, ch ∈ subscribersOf w sid ∧ ch.readyState = WebSocketOPEN
          ∧ q = (ch.id, ev))
    ∧ (subscribersOf w sid = [] → broadcast w sid ev = [])
    ∧ (mapGet w sid = none → broadcast w sid ev = []) := by
  have h1 : broadcast w sid ev
      = ((subscribersOf w sid).filter
          (fun ch => ch.readyState = WebSocketOPEN)).map (fun ch => (ch.id, ev)) :=
    filterMap_ite (fun ch : WsChannel => ch.readyState = WebSocketOPEN)
      (fun ch : WsChannel => (ch.id, ev)) (subscribersOf w sid)
  refine ⟨h1, ?_, ?_, ?_⟩
  · intro q
    rw [h1]
    simp only [List.mem_map, List.mem_filter, decide_eq_true_eq]
    constructor
    · rintro ⟨ch, ⟨hmem, hopen⟩, hq⟩
      exact ⟨ch, hmem, hopen, hq.symm⟩
    · rintro ⟨ch, hmem, hopen, hq⟩
      exact ⟨ch, ⟨hmem, hopen⟩, hq.symm⟩
  · intro h0
    rw [h1, h0]
    rfl
  · intro h0
    rw [h1]
    simp [subscribersOf, h0]

/-- C4 witness: on the demo state ("s1" has OPEN channel 1 and CLOSED
channel 2), a pair is delivered for channel 1 iff an open subscriber with
that id exists — and indeed the send list is exactly `[(1, ev)]`. -/
theorem broadcast_delivers_exactly_open_witness :
    (broadcast demoState.wsClients "s1" (Event.qr "q")
        = [(1, Event.qr "q")])
    ∧ ((2, Event.qr "q") ∈ broadcast demoState.wsClients "s1" (Event.qr "q") ↔
        ∃ ch, ch ∈ subscribersOf demoState.wsClients "s1"
          ∧ ch.readyState = WebSocketOPEN ∧ ((2 : Nat), Event.qr "q") = (ch.id, Event.qr "q")) :=
  ⟨by decide,
   (broadcast_delivers_exactly_open demoState.wsClients "s1" (Event.qr "q")).2.1
     (2, Event.qr "q")⟩

/-- C10: `broadcast` leaves all shared state unchanged — the state component
of its result is the input state, so the `sessions` map and every subscriber
list are untouched and a non-writable channel is skipped but not removed;
a channel is removed only by its own `close` handler, which replaces the
session's list by the same list with exactly that channel filtered out,
keeps every other subscriber of that session, leaves every other session's
subscriber list intact, and leaves the `sessions` map intact. -/
theorem broadcast_frame_and_close_removal (st : SrvState) (sid : String)
    (ev : Event) (wsId : Nat) :
    (broadcastSt st sid ev).1 = st
    ∧ subscribersOf (wsCloseHandler st sid wsId).wsClients sid
        = (subscribersOf st.wsClients sid).filter (fun c => c.id ≠ wsId)
    ∧ (∀ sid2, sid2 ≠ sid →
        mapGet (wsCloseHandler st sid wsId).wsClients sid2
          = mapGet st.wsClients sid2)
    ∧ (wsCloseHandler st sid wsId).sessions = st.sessions
    ∧ (∀ ch, ch ∈ subscribersOf st.wsClients sid → ch.id ≠ wsId →
        ch ∈ subscribersOf (wsCloseHandler st sid wsId).wsClients sid) := by
  have h2 : subscribersOf (wsCloseHandler st sid wsId).wsClients sid
      = (subscribersOf st.wsClients sid).filter (fun c => c.id ≠ wsId) := by
    simp only [wsCloseHandler, subscribersOf]
    rw [mapGet_mapSet_self]
    rfl
  refine ⟨rfl, h2, ?_, rfl, ?_⟩
  · intro sid2 hne
    exact mapGet_mapSet_ne st.wsClients sid sid2 _ hne
  · intro ch hmem hid
    rw [h2, List.mem_filter]
    exact ⟨hmem, by simpa using hid⟩

/-- C10 witness: closing channel 1 of `"s1"` on the demo state leaves the
still-subscribed channel 2 in place and does not touch the `sessions` map;
`broadcast` returns the state unchanged. -/
theorem broadcast_frame_and_close_removal_witness :
    (broadcastSt demoState "s1" (Event.connection "connected")).1 = demoState
    ∧ WsChannel.mk 2 3 ∈ subscribersOf (wsCloseHandler demoState "s1" 1).wsClients "s1" :=
  ⟨(broadcast_frame_and_close_removal demoState "s1" (Event.connection "connected") 1).1,
   (broadcast_frame_and_close_removal demoState "s1" (Event.connection "connected") 1).2.2.2.2
     (WsChannel.mk 2 3) (by decide) (by decide)⟩

/-- C5: for a single-message upsert batch, a message event is broadcast iff
the batch is in `'notify'` (live) mode, the message is not authored by the
session's own account (`fromMe` false) and the extracted text is non-empty;
in that case exactly one event `{from, text, timestamp}` is broadcast, with
`text = extractText msg`; otherwise nothing is broadcast. The extracted text
is the first non-empty of the direct body (`conversation`) and the extended
body (`extendedTextMessage.text`), and `""` when both are absent or empty
(second and third conjuncts), in which case the message is dropped. This
holds for every outcome of the acknowledgement send (`sendOk` arbitrary). -/
theorem message_event_broadcast_iff (sendOk : String → String → Bool)
    (batchType : String) (msg : WAMsg) (now : Nat) :
    ((messagesUpsert sendOk batchType [msg] now).broadcasts
        = if batchType = "notify" ∧ msg.key.fromMe = false ∧ extractText msg ≠ ""
          then [Event.message msg.key.remoteJid (extractText msg) now] else [])
    ∧ (∀ mc : MsgContent, msg.message = some mc →
        extractText msg
          = if mc.conversation.getD "" = "" then mc.extendedText.getD ""
            else mc.conversation.getD "")
    ∧ (msg.message = none → extractText msg = "") := by
  refine ⟨?_, ?_, ?_⟩
  · by_cases hbt : batchType = "notify"
    · cases hfm : msg.key.fromMe with
      | true => simp [messagesUpsert, processMessages, hbt, hfm]
      | false =>
        by_cases hx : extractText msg = ""
        · simp [messagesUpsert, processMessages, hbt, hfm, hx]
        · cases hsl : jsStartsWithSlash (extractText msg) with
          | false => simp [messagesUpsert, processMessages, hbt, hfm, hx, hsl]
          | true =>
            cases hok : sendOk msg.key.remoteJid (ackText (extractText msg)) with
            | false => simp [messagesUpsert, processMessages, hbt, hfm, hx, hsl, hok]
            | true => simp [messagesUpsert, processMessages, hbt, hfm, hx, hsl, hok]
    · simp [messagesUpsert, hbt]
  · intro mc hmc
    cases hc : mc.conversation with
    | none =>
      cases he : mc.extendedText with
      | none => simp [extractText, jsOrStr, hmc, hc, he]
      | some t =>
        by_cases ht : t = "" <;> simp [extractText, jsOrStr, hmc, hc, he, ht]
    | some s =>
      by_cases hs : s = ""
      · cases he : mc.extendedText with
        | none => simp [extractText, jsOrStr, hmc, hc, he, hs]
        | some t =>
          by_cases ht : t = "" <;> simp [extractText, jsOrStr, hmc, hc, he, hs, ht]
      · simp [extractText, jsOrStr, hmc, hc, hs]
  · intro hmn
    simp [extractText, hmn, jsOrStr]

/-- C5 witness: the plain non-self message `"hello"` in a notify batch is
broadcast as exactly one message event. -/
theorem message_event_broadcast_iff_witness :
    (messagesUpsert (fun _ _ => true) "notify" [helloMsg] 7).broadcasts
      = if ("notify" : String) = "notify" ∧ helloMsg.key.fromMe = false
            ∧ extractText helloMsg ≠ ""
        then [Event.message helloMsg.key.remoteJid (extractText helloMsg) 7] else [] :=
  (message_event_broadcast_iff (fun _ _ => true) "notify" helloMsg 7).1

/-- C6: for a non-self notify message with non-empty extracted text, exactly
one acknowledgement `sock.sendMessage` call is made iff the text begins with
the command sigil `'/'` (none otherwise), its reply text is
`"Command received: /"` followed by `text.slice(1).split(' ')[0].toLowerCase()`
— which contains the lowercased first whitespace-delimited token after the
sigil as a prefix of the command part (last conjunct) — and exactly one
message event is broadcast either way. -/
theorem command_ack_exactly_once (sendOk : String → String → Bool) (msg : WAMsg)
    (now : Nat) (hfm : msg.key.fromMe = false) (hne : extractText msg ≠ "") :
    ((messagesUpsert sendOk "notify" [msg] now).sends
        = if jsStartsWithSlash (extractText msg) = true
          then [(msg.key.remoteJid, ackText (extractText msg))] else [])
    ∧ (messagesUpsert sendOk "notify" [msg] now).broadcasts.length = 1
    ∧ ackText (extractText msg) = "Command received: /" ++ commandOf (extractText msg)
    ∧ ((specFirstWhitespaceToken (jsDrop1 (extractText msg))).data.map Char.toLower)
        <+: (commandOf (extractText msg)).data := by
  refine ⟨?_, ?_, rfl, ?_⟩
  · cases hsl : jsStartsWithSlash (extractText msg) with
    | false => simp [messagesUpsert, processMessages, hfm, hne, hsl]
    | true =>
      cases hok : sendOk msg.key.remoteJid (ackText (extractText msg)) with
      | false => simp [messagesUpsert, processMessages, hfm, hne, hsl, hok]
      | true => simp [messagesUpsert, processMessages, hfm, hne, hsl, hok]
  · cases hsl : jsStartsWithSlash (extractText msg) with
    | false => simp [messagesUpsert, processMessages, hfm, hne, hsl]
    | true =>
      cases hok : sendOk msg.key.remoteJid (ackText (extractText msg)) with
      | false => simp [messagesUpsert, processMessages, hfm, hne, hsl, hok]
      | true => simp [messagesUpsert, processMessages, hfm, hne, hsl, hok]
  · have hmono : ∀ a : Char, (!a.isWhitespace) = true → decide (a ≠ ' ') = true := by
      intro a ha
      by_cases h2 : a = ' '
      · subst h2
        exact absurd ha (by decide)
      · simp [h2]
    exact List.IsPrefix.map Char.toLower
      (takeWhile_mono_isPrefixOf hmono (jsDrop1 (extractText msg)).data)

/-- C6 witness: `"/status"` from a non-self sender in a notify batch yields
exactly one acknowledgement send and exactly one broadcast message event. -/
theorem command_ack_exactly_once_witness :
    ((messagesUpsert (fun _ _ => true) "notify" [statusMsg] 5).sends
        = if jsStartsWithSlash (extractText statusMsg) = true
          then [(statusMsg.key.remoteJid, ackText (extractText statusMsg))] else [])
    ∧ (messagesUpsert (fun _ _ => true) "notify" [statusMsg] 5).broadcasts.length = 1 :=
  ⟨(command_ack_exactly_once (fun _ _ => true) statusMsg 5 rfl (by decide)).1,
   (command_ack_exactly_once (fun _ _ => true) statusMsg 5 rfl (by decide)).2.1⟩

/-- C9 counterexample: the `messages.upsert` loop has no try/catch, so a
rejected acknowledgement send aborts the remaining messages of the batch. In
the two-message notify batch `["/cmd", "hello"]` with every send failing, the
already-extracted `"/cmd"` event is broadcast and the send is attempted once,
but `"hello"` — a message that would otherwise be broadcast — is never
processed: the claim that remaining messages are still processed fails here. -/
theorem ack_failure_aborts_batch_counterexample :
    (messagesUpsert (fun _ _ => false) "notify" [cmdMsg, helloMsg] 0).broadcasts
        = [Event.message "u1@s.whatsapp.net" "/cmd" 0]
    ∧ Event.message "u1@s.whatsapp.net" "hello" 0
        ∉ (messagesUpsert (fun _ _ => false) "notify" [cmdMsg, helloMsg] 0).broadcasts
    ∧ (messagesUpsert (fun _ _ => true) "notify" [helloMsg] 0).broadcasts
        = [Event.message "u1@s.whatsapp.net" "hello" 0] := by
  refine ⟨by decide, by decide, by decide⟩

/-- C9 (amended): a failing acknowledgement send is attempted exactly once
and never retried, the current message's already-extracted event is still
broadcast before the failure, but the rejection aborts the handler: no
message after it in the same batch is processed (no further broadcast, no
further send), and the handler ends in the errored state. -/
theorem ack_failure_aborts_batch (sendOk : String → String → Bool) (msg : WAMsg)
    (rest : List WAMsg) (now : Nat)
    (hfm : msg.key.fromMe = false) (hne : extractText msg ≠ "")
    (hsl : jsStartsWithSlash (extractText msg) = true)
    (hfail : sendOk msg.key.remoteJid (ackText (extractText msg)) = false) :
    messagesUpsert sendOk "notify" (msg :: rest) now
      = UpsertOut.mk [Event.message msg.key.remoteJid (extractText msg) now]
          [(msg.key.remoteJid, ackText (extractText msg))] true := by
  simp [messagesUpsert, processMessages, hfm, hne, hsl, hfail]

/-- C9 amended-claim witness: failing batch `["/cmd", "hello"]` — one send
attempt, one broadcast (the `"/cmd"` event), processing aborted. -/
theorem ack_failure_aborts_batch_witness :
    messagesUpsert (fun _ _ => false) "notify" (cmdMsg :: [helloMsg]) 0
      = UpsertOut.mk [Event.message cmdMsg.key.remoteJid (extractText cmdMsg) 0]
          [(cmdMsg.key.remoteJid, ackText (extractText cmdMsg))] true :=
  ack_failure_aborts_batch (fun _ _ => false) cmdMsg [helloMsg] 0 rfl (by decide)
    (by decide) rfl

/-- C7: `POST /api/pair` — a missing (falsy) `sessionId` or `phoneNumber`
yields `400` with the error and no state change or side effect; otherwise the
handler, in order, creates the session under the given id (superseding any
prior entry: the registry now maps the id to the fresh handle with the
digits-only phone number and status `'connecting'`), waits the fixed 2000 ms
settle interval, requests a pairing code from the transport for the
normalized number exactly once (no retry), and returns it as
`{success, pairCode, message}`; a transport error propagates as
`500 {error}` with the underlying message. -/
theorem pair_validates_then_creates_waits_requests (st : SrvState) (req : PairReq)
    (sockId : Nat) (pres : Except String String) :
    ((jsFalsy req.sessionId || jsFalsy req.phoneNumber) = true →
        apiPair st req sockId pres
          = (st, PairResp.badRequest "sessionId and phoneNumber required", []))
    ∧ ((jsFalsy req.sessionId || jsFalsy req.phoneNumber) = false →
        ((apiPair st req sockId pres).2.2
            = [PairAction.createSess (req.sessionId.getD "")
                 (cleanPhoneOf (req.phoneNumber.getD "")),
               PairAction.delay 2000,
               PairAction.requestCode (cleanPhoneOf (req.phoneNumber.getD ""))]
        ∧ mapGet (apiPair st req sockId pres).1.sessions (req.sessionId.getD "")
            = some (Session.mk (some sockId)
                (some (cleanPhoneOf (req.phoneNumber.getD ""))) SessStatus.connecting)
        ∧ (apiPair st req sockId pres).1.wsClients = st.wsClients
        ∧ (∀ code, pres = Except.ok code →
            (apiPair st req sockId pres).2.1
              = PairResp.ok code
                  "Enter this code in WhatsApp > Linked Devices > Link a Device")
        ∧ (∀ e, pres = Except.error e →
            (apiPair st req sockId pres).2.1 = PairResp.serverError e))) := by
  constructor
  · intro h
    simp [apiPair, h]
  · intro h
    cases pres with
    | ok code =>
      refine ⟨by simp [apiPair, h], ?_, by simp [apiPair, h], ?_, ?_⟩
      · simp [apiPair, h, mapGet_mapSet_self]
      · intro c hc
        cases hc
        simp [apiPair, h]
      · intro e he
        cases he
    | error e =>
      refine ⟨by simp [apiPair, h], ?_, by simp [apiPair, h], ?_, ?_⟩
      · simp [apiPair, h, mapGet_mapSet_self]
      · intro c hc
        cases hc
      · intro e2 he
        cases he
        simp [apiPair, h]

/-- C7 witness: a well-formed pairing request for `"s1"` with raw phone
`"+1 555-123-4567"` performs create, 2000 ms delay, and one pairing-code
request for the digits-only number, in that order. -/
theorem pair_validates_then_creates_waits_requests_witness :
    (jsFalsy (some "s1") || jsFalsy (some "+1 555-123-4567")) = false
    ∧ (apiPair demoState (PairReq.mk (some "s1") (some "+1 555-123-4567")) 9
          (Except.ok "ABCD-1234")).2.2
        = [PairAction.createSess "s1" (cleanPhoneOf "+1 555-123-4567"),
           PairAction.delay 2000,
           PairAction.requestCode (cleanPhoneOf "+1 555-123-4567")] :=
  ⟨by decide,
   ((pair_validates_then_creates_waits_requests demoState
       (PairReq.mk (some "s1") (some "+1 555-123-4567")) 9
       (Except.ok "ABCD-1234")).2 (by decide)).1⟩

/-- C8: `POST /api/send` — an absent session, or one whose status is not
`'connected'`, yields `400 {error:'Session not connected'}` with the state
unchanged and no transport call; for a `'connected'` session holding a
transport handle, exactly one `sendMessage` call is made whose recipient is
`to` verbatim when `to` contains `'@'` and `to + '@s.whatsapp.net'`
otherwise, carrying the given message text, and when the transport call
succeeds the response is `{success:true}` (a transport error surfaces as
`500 {error}`, still with exactly that one call made). -/
theorem send_requires_connected_session (st : SrvState)
    (sid toAddr message : String) (sres : Except String Unit) :
    (mapGet st.sessions sid = none →
        apiSend st sid toAddr message sres
          = (st, SendResp.badRequest "Session not connected", []))
    ∧ (∀ s, mapGet st.sessions sid = some s → s.status ≠ SessStatus.connected →
        apiSend st sid toAddr message sres
          = (st, SendResp.badRequest "Session not connected", []))
    ∧ (∀ s k, mapGet st.sessions sid = some s → s.status = SessStatus.connected →
        s.sock = some k →
        ((apiSend st sid toAddr message sres).2.2
            = [((if toAddr.data.any (fun c => c = '@') then toAddr
                  else toAddr ++ "@s.whatsapp.net"), message)]
        ∧ (sres = Except.ok () →
            apiSend st sid toAddr message sres
              = (st, SendResp.ok,
                  [((if toAddr.data.any (fun c => c = '@') then toAddr
                      else toAddr ++ "@s.whatsapp.net"), message)]))
        ∧ (∀ e, sres = Except.error e →
            (apiSend st sid toAddr message sres).2.1 = SendResp.serverError e))) := by
  refine ⟨?_, ?_, ?_⟩
  · intro h
    simp [apiSend, h]
  · intro s hget hst
    simp [apiSend, hget, hst]
  · intro s k hget hst hsock
    cases sres with
    | ok u =>
      cases u
      refine ⟨by simp [apiSend, hget, hst, hsock], ?_, ?_⟩
      · intro _
        simp [apiSend, hget, hst, hsock]
      · intro e he
        cases he
    | error e =>
      refine ⟨by simp [apiSend, hget, hst, hsock], ?_, ?_⟩
      · intro hok
        cases hok
      · intro e2 he
        cases he
        simp [apiSend, hget, hst, hsock]

/-- C8 witness: the spec scenario — session `"s1"` connected,
`{to:"15557654321", message:"hi"}` succeeds and the transport receives one
send to `"15557654321@s.whatsapp.net"` with text `"hi"`. -/
theorem send_requires_connected_session_witness :
    apiSend demoState "s1" "15557654321" "hi" (Except.ok ())
      = (demoState, SendResp.ok, [("15557654321@s.whatsapp.net", "hi")]) := by
  have h := ((send_requires_connected_session demoState "s1" "15557654321" "hi"
      (Except.ok ())).2.2
      (Session.mk (some 7) (some "15551234567") SessStatus.connected) 7
      (by decide) rfl rfl).2.1 rfl
  exact h.trans (by decide)

end GZB
